import Mathlib

/-!
Verification of the intake-pipeline core of the `digital_invoice` repository:
the OCR scheduler with per-file stage markers, the document processor
registry, the Wareneingang (goods-receipt) processor with its
delivery-note-number extraction and CSV reference-data matching, and the
hybrid pixel/text blank-page filter.

Each definition is a shallow embedding of the corresponding Python
function.  File-system and database side effects are made explicit: the
environment a call observes (file lookups, OCR outcomes, DB rows) is
passed in as data, and the state it mutates (markers, stored paths) is
returned.  String handling is modelled on `List Char` so that every
definition evaluates by kernel reduction; the Python `str` operations
used by the code (`strip`, `lower`, `in`, `isalnum`, ...) are modelled
for the ASCII range the pipeline's identifiers and keywords live in.
-/

set_option autoImplicit false

/-! ### String helpers (models of the Python `str` operations used) -/

/-- Model of Python `str.isspace` for a single character, over the ASCII
whitespace characters (space, tab, LF, VT, FF, CR). -/
def pyIsSpace (c : Char) : Bool :=
  c.toNat == 32 || c.toNat == 9 || c.toNat == 10 || c.toNat == 11 ||
  c.toNat == 12 || c.toNat == 13

/-- Model of Python `str.isprintable` for a single character, faithful on
the ASCII range (control characters 0-31 and DEL are not printable). -/
def pyIsPrintable (c : Char) : Bool :=
  decide (32 ≤ c.toNat) && !(c.toNat == 127)

/-- Model of Python `str.strip()`: drop leading and trailing whitespace. -/
def pyStrip (s : String) : String :=
  ⟨((s.data.dropWhile pyIsSpace).reverse.dropWhile pyIsSpace).reverse⟩

/-- Model of Python `str.lower()`, faithful on the ASCII range. -/
def lowerStr (s : String) : String :=
  ⟨s.data.map Char.toLower⟩

/-- `leadsWith n h` holds when the list `n` is an initial segment of `h`. -/
def leadsWith : List Char → List Char → Bool
  | [], _ => true
  | _ :: _, [] => false
  | a :: as, b :: bs => a == b && leadsWith as bs

/-- Model of Python `needle in hay` for strings: contiguous-substring test. -/
def containsSub (needle : List Char) : List Char → Bool
  | [] => needle.isEmpty
  | c :: rest => leadsWith needle (c :: rest) || containsSub needle rest

/-! ### Delivery-note extraction (`wareneingang_processor.py`) -/

/-- `BaseDocumentProcessor._extract_text_from_pdf`: split the page text
into lines, strip each line, keep the non-empty ones, and return the
first `maxLines` of them.  `raw` is the list of raw text lines of the
first page (Python `text.split('\n')`). -/
def extract_text_from_pdf (raw : List String) (maxLines : Nat) : List String :=
  (((raw.map pyStrip).filter (fun l => !(l == ""))).take maxLines)

/-- The anchor test `"wareneingang" in line.lower()` used by both
`can_handle` and `_extract_lieferscheinnummer`. -/
def containsAnchor (line : String) : Bool :=
  containsSub "wareneingang".data (lowerStr line).data

/-- The candidate cleaning of `_extract_lieferscheinnummer`: strip the
line, then keep only characters that are printable and not whitespace. -/
def cleanCandidate (s : String) : String :=
  ⟨(pyStrip s).data.filter (fun c => pyIsPrintable c && !(pyIsSpace c))⟩

/-- The validation of `_extract_lieferscheinnummer`: non-empty, at least
3 characters, and at least one alphanumeric character. -/
def isValidId (s : String) : Bool :=
  decide (3 ≤ s.data.length) && s.data.any Char.isAlphanum

/-- `WareneingangProcessor._extract_lieferscheinnummer`, given the
already-extracted lines: scan for a line containing the anchor; take the
following line, clean and validate it; on success return it, otherwise
the loop continues with the later lines (so a later anchor occurrence is
still consulted). -/
def extract_lieferscheinnummer : List String → Option String
  | [] => none
  | line :: rest =>
    if containsAnchor line then
      match rest with
      | [] => extract_lieferscheinnummer rest
      | next :: _ =>
        let cand := cleanCandidate next
        if isValidId cand then some cand else extract_lieferscheinnummer rest
    else extract_lieferscheinnummer rest

/-- `WareneingangProcessor.can_handle`: look for the anchor keyword in the
first 20 extracted lines. -/
def can_handle (raw : List String) : Bool :=
  (extract_text_from_pdf raw 20).any containsAnchor

/-- Identifier extraction applied to a raw document: the processor
extracts the first 30 lines and then scans them. -/
def extract_from_raw (raw : List String) : Option String :=
  extract_lieferscheinnummer (extract_text_from_pdf raw 30)

/-- The adjacent (line, next line) pairs of a line list. -/
def adjacentPairs (lines : List String) : List (String × String) :=
  lines.zip lines.tail

/-- The cleaned candidates that follow an anchor line and pass
validation, in document order. -/
def validCandidates (lines : List String) : List String :=
  ((adjacentPairs lines).filter
    (fun q => containsAnchor q.1 && isValidId (cleanCandidate q.2))).map
    (fun q => cleanCandidate q.2)

/-- Claim-side extractor, following the claim's words: only the first
anchor occurrence is honored; if its following line fails validation,
extraction fails for the document. -/
def extract_firstAnchorOnly : List String → Option String
  | [] => none
  | line :: rest =>
    if containsAnchor line then
      match rest with
      | [] => none
      | next :: _ =>
        let cand := cleanCandidate next
        if isValidId cand then some cand else none
    else extract_firstAnchorOnly rest

/-! ### CSV reference-data loading and matching (`wareneingang_processor.py`) -/

/-- A parsed CSV record: an ordered association of column header to value,
as produced by `csv.DictReader` (headers are distinct in the reference
files, so dictionary and association-list semantics agree). -/
abbrev CsvRow := List (String × String)

/-- Model of Python `dict.get key default` on an association list. -/
def dictGet (key : String) (row : CsvRow) (default : String) : String :=
  match row.find? (fun kv => kv.1 == key) with
  | some kv => kv.2
  | none => default

/-- Splitting one CSV line on a delimiter character (the `csv` module's
quoting rules are not exercised by the reference files). -/
def splitCellsAux (d : Char) : List Char → List Char → List String
  | acc, [] => [⟨acc.reverse⟩]
  | acc, c :: rest =>
    if c == d then ⟨acc.reverse⟩ :: splitCellsAux d [] rest
    else splitCellsAux d (c :: acc) rest

/-- Splits a line into its cells at every occurrence of the delimiter. -/
def splitCells (d : Char) (s : String) : List String :=
  splitCellsAux d [] s.data

/-- One `csv.DictReader` row: pair the header cells with the line's value
cells.  The reference files are rectangular, so the pairing covers every
column. -/
def rowDict (d : Char) (header line : String) : CsvRow :=
  (splitCells d header).zip (splitCells d line)

/-- The fixed delimiter preference order of `_load_single_csv`. -/
def delimiters_to_try : List Char := [';', ',', '\t', '|']

/-- The acceptance test of `_load_single_csv`: the first data row parsed
with this delimiter exists and has more than 10 columns
(`if first_row and len(first_row) > 10`). -/
def acceptsDelimiter (d : Char) (lines : List String) : Bool :=
  match lines with
  | header :: first :: _ => decide (10 < (rowDict d header first).length)
  | _ => false

/-- Parsing the whole file with an accepted delimiter: every data line
becomes a record, with every header and every value stripped
(`{key.strip(): value.strip() ...}`). -/
def loadRows (d : Char) (lines : List String) : List CsvRow :=
  match lines with
  | [] => []
  | header :: rest =>
    rest.map (fun l => (rowDict d header l).map (fun kv => (pyStrip kv.1, pyStrip kv.2)))

/-- The delimiter loop of `_load_single_csv`: try each delimiter in
order, load the file with the first accepted one, and yield no rows when
none is accepted. -/
def tryDelimiters : List Char → List String → List CsvRow
  | [], _ => []
  | d :: ds, lines =>
    if acceptsDelimiter d lines then loadRows d lines else tryDelimiters ds lines

/-- `WareneingangProcessor._load_single_csv` on the decoded lines of one
reference file. -/
def load_single_csv (lines : List String) : List CsvRow :=
  tryDelimiters delimiters_to_try lines

/-- `WareneingangProcessor._load_csv_files`: every reference file is
loaded independently and the results are concatenated; a file that
yields no rows contributes nothing and does not stop the load. -/
def load_csv_files (files : List (List String)) : List CsvRow :=
  files.flatMap load_single_csv

/-- The identifier-column value of a record as the matching loop reads
it: `str(csv_row.get('LIEFERSCHEINNR', '')).strip()`. -/
def csvIdent (row : CsvRow) : String :=
  pyStrip (dictGet "LIEFERSCHEINNR" row "")

/-- The records of `_import_csv_data` that take the exact-match branch
(`csv_lieferscheinnr == lieferscheinnummer`) and are imported as line
items (persistence is modelled as succeeding). -/
def importedRows (rows : List CsvRow) (nr : String) : List CsvRow :=
  rows.filter (fun r => csvIdent r == nr)

/-- The import counter of `_import_csv_data`: one increment per record
taking the exact-match branch. -/
def import_csv_data (rows : List CsvRow) (nr : String) : Nat :=
  rows.foldl (fun acc r => if csvIdent r == nr then acc + 1 else acc) 0

/-- The diagnostic `found_similar` collection of `_import_csv_data`:
non-matching identifiers of length at least 3 related by substring
containment in either direction (never used for import decisions). -/
def found_similar (rows : List CsvRow) (nr : String) : List String :=
  (rows.filter (fun r =>
    !(csvIdent r == nr) && !(csvIdent r == "") &&
    decide (3 ≤ (csvIdent r).data.length) &&
    (containsSub nr.data (csvIdent r).data ||
      containsSub (csvIdent r).data nr.data))).map csvIdent

/-! ### Blank-page filter (`ocr_scheduler.py`, `_remove_blank_pages_pillow`) -/

/-- One rendered page: the number of near-white pixels (grey value 250 to
255) of the reduced-resolution greyscale render, the total pixel count,
and the page's text layer.  The float ratio comparison
`white_pixels / total_pixels > 0.98` is modelled exactly over the
integers as `50 * white > 49 * total`. -/
structure Page where
  whitePixels : Nat
  totalPixels : Nat
  text : String
  deriving Repr, DecidableEq

/-- The fixed keyword list of the text-based rescue check. -/
def wareneingang_keywords : List String :=
  ["wareneingang", "lieferschein", "bestellung", "artikel"]

/-- The pixel criterion: `white_ratio > 0.98`. -/
def pixel_based_blank (p : Page) : Bool :=
  decide (49 * p.totalPixels < 50 * p.whitePixels)

/-- The text criterion, exactly as the code computes it: it starts out
true and is refuted only for pixel-blank candidates whose stripped text
layer is meaningful (more than 10 characters and some alphanumeric) or
contains one of the fixed keywords. -/
def text_based_blank (p : Page) : Bool :=
  if pixel_based_blank p then
    if decide (10 < (pyStrip p.text).data.length) && (pyStrip p.text).data.any Char.isAlphanum
        || wareneingang_keywords.any
            (fun k => containsSub k.data (lowerStr (pyStrip p.text)).data)
    then false
    else true
  else true

/-- A page is removed only when both criteria agree
(`is_blank = pixel_based_blank and text_based_blank`). -/
def is_blank (p : Page) : Bool :=
  pixel_based_blank p && text_based_blank p

/-- The `pages_to_remove` list: indices of blank pages in ascending page
order, starting at index `i`. -/
def pagesToRemoveAux (i : Nat) : List Page → List Nat
  | [] => []
  | p :: rest =>
    if is_blank p then i :: pagesToRemoveAux (i + 1) rest
    else pagesToRemoveAux (i + 1) rest

/-- The `pages_to_remove` list collected by the page loop. -/
def pagesToRemove (ps : List Page) : List Nat :=
  pagesToRemoveAux 0 ps

/-- The deletion loop: `doc.delete_page(page_num)` applied to a list of
indices in the given order. -/
def applyDeletions : List Nat → List Page → List Page
  | [], ps => ps
  | i :: rest, ps => applyDeletions rest (ps.eraseIdx i)

/-- The document contents after `_remove_blank_pages_pillow` ran its
deletion loop: blank-page indices are deleted back to front
(`for page_num in reversed(pages_to_remove)`). -/
def blankFilterResult (ps : List Page) : List Page :=
  applyDeletions (pagesToRemove ps).reverse ps

/-- The return value of `_remove_blank_pages_pillow`: a boolean.  When at
least one page was removed the document is rewritten and the result is
the success of that save (`saveOk` abstracts the temp-file write and
swap); when no page was removed the function returns `False` after
logging success. -/
def remove_blank_pages_pillow (saveOk : Bool) (ps : List Page) : Bool :=
  let removed_count := (pagesToRemove ps).length
  if 0 < removed_count then
    if saveOk then true else false
  else false

/-! ### OCR service (`ocr_service.py`, `create_searchable_pdf`) -/

/-- How the `ocrmypdf.ocr` call ends, covering each `except` arm of
`create_searchable_pdf`.  `missingDependency` carries the success of the
minimal-configuration fallback run; `unexpected` carries the success of
the final copy-without-OCR fallback. -/
inductive OcrOutcome where
  | ok
  | priorOcrFound
  | inputFileError
  | outputFileAccessError
  | missingDependency (fallbackOk : Bool)
  | unexpected (copyOk : Bool)
  deriving Repr, DecidableEq

/-- What ends up at the output path. -/
inductive PdfOutput where
  | nothing
  | ocredPdf
  | copyOfInput
  deriving Repr, DecidableEq

/-- `OCRService.create_searchable_pdf`: returns the success flag and what
was written to the output path.  On `PriorOcrFoundError` and on any
unexpected exception the input is copied unchanged; only the plain and
fallback `ocrmypdf.ocr` runs produce a PDF with an added text layer. -/
def create_searchable_pdf (inputFileExists : Bool) (o : OcrOutcome) : Bool × PdfOutput :=
  if !inputFileExists then (false, .nothing)
  else
    match o with
    | .ok => (true, .ocredPdf)
    | .priorOcrFound => (true, .copyOfInput)
    | .inputFileError => (false, .nothing)
    | .outputFileAccessError => (false, .nothing)
    | .missingDependency fallbackOk =>
      if fallbackOk then (true, .ocredPdf) else (false, .nothing)
    | .unexpected copyOk =>
      if copyOk then (true, .copyOfInput) else (false, .nothing)

/-! ### Document processor registry (`base_processor.py`) -/

/-- The result of one awaited processor call: a returned boolean or a
raised exception. -/
inductive CallOutcome where
  | ok (b : Bool)
  | raised
  deriving Repr, DecidableEq

/-- A registered processor's behaviour on the one document under
consideration: what its `can_handle` and `process` calls do. -/
structure Proc where
  canHandleRes : CallOutcome
  processRes : CallOutcome
  deriving Repr, DecidableEq

/-- `DocumentProcessorManager.process_document`: iterate the processors
in registration order inside a per-processor `try`.  A processor whose
`can_handle` is false or raises is skipped; when `can_handle` is true,
`process` is called — a true result returns immediately, while a false
result only logs a warning and the loop continues; a raised exception is
caught and the loop continues.  `False` is returned when the list is
exhausted (or empty). -/
def process_document : List Proc → Bool
  | [] => false
  | p :: rest =>
    match p.canHandleRes with
    | .raised => process_document rest
    | .ok false => process_document rest
    | .ok true =>
      match p.processRes with
      | .raised => process_document rest
      | .ok true => true
      | .ok false => process_document rest

/-- Claim-side registry dispatch, following the claim's words: the first
processor whose `can_handle` returns true has its `process` result
returned whether true or false; later processors are consulted only when
an applicable processor raised. -/
def process_document_claim : List Proc → Bool
  | [] => false
  | p :: rest =>
    match p.canHandleRes with
    | .raised => process_document_claim rest
    | .ok false => process_document_claim rest
    | .ok true =>
      match p.processRes with
      | .raised => process_document_claim rest
      | .ok b => b

/-! ### Scheduler stage driving (`ocr_scheduler.py`, `_process_single_file_complete`) -/

/-- The outcome of the document-processing stage's
`process_document` await. -/
inductive DocProcOutcome where
  | handled
  | notHandled
  | raised
  deriving Repr, DecidableEq

/-- The environment one `_process_single_file_complete` call observes:
the results of its successive `_find_current_file_path` lookups (the
file can move or vanish between stages), the OCR outcome, whether the
blank-page removal raised, and the document-processing collaborators. -/
structure SchedEnv where
  find1 : Bool
  ocrOk : Bool
  find2 : Bool
  blankRemovalRaises : Bool
  find3 : Bool
  find4 : Bool
  managerAvailable : Bool
  docOutcome : DocProcOutcome
  deriving Repr, DecidableEq

/-- The durable state the call mutates: the two sidecar markers next to
the original intake path, the database registration, and membership in
the in-memory `processed_files` set. -/
structure PipelineState where
  ocrMarker : Bool
  docMarker : Bool
  inDb : Bool
  processed : Bool
  deriving Repr, DecidableEq

/-- `OCRScheduler._process_single_file_complete` for one file.  Stage 1
writes the OCR marker only on OCR success and aborts the call on
failure.  Stage 2 (blank pages) and stage 3 (DB registration) write no
marker; their failures are caught.  Stage 4 writes the doc-processing
marker on every path that reaches it — also when the file is not found,
when no processor handles the document, when the manager is unavailable,
and when processing raises — and then records the file as processed. -/
def process_single_file_complete (env : SchedEnv) (s : PipelineState) : PipelineState :=
  if !env.find1 then s
  else
    match (if s.ocrMarker then some s
           else if env.ocrOk then some { s with ocrMarker := true }
           else none) with
    | none => s
    | some s1 =>
      let s2 := s1
      let s3 := if !s2.inDb && env.find3 then { s2 with inDb := true } else s2
      if s3.docMarker then { s3 with processed := true }
      else if !env.find4 then { s3 with docMarker := true, processed := true }
      else
        match env.managerAvailable, env.docOutcome with
        | true, .handled => { s3 with docMarker := true, processed := true }
        | true, .notHandled => { s3 with docMarker := true, processed := true }
        | true, .raised => { s3 with docMarker := true, processed := true }
        | false, _ => { s3 with docMarker := true, processed := true }

/-! ### Relocation (`wareneingang_processor.py`, `_move_document_to_category`) -/

/-- The environment of one `_move_document_to_category` call: the
category directory resolved from the database by `_get_category_path`
(`none` when the lookup fails), whether the source file still exists at
the document's recorded path, and the formatted timestamp. -/
structure MoveEnv where
  categoryPath : Option String
  srcExists : Bool
  timestamp : String
  deriving Repr, DecidableEq

/-- The document record the call works on. -/
structure DokumentRec where
  id : Nat
  pfad : String
  dateiname : String
  deriving Repr, DecidableEq

/-- The observable outcome of one relocation attempt: the returned
success flag, the move that was performed (if any), and the document
record's stored path and filename afterwards. -/
structure MoveResult where
  success : Bool
  movedTo : Option String
  dbPfad : String
  dbDateiname : String
  deriving Repr, DecidableEq

/-- The filename sanitisation of `_move_document_to_category`: keep only
alphanumerics, `-` and `_`; an absent, empty or fully-stripped
identifier becomes `"unbekannt"`. -/
def sanitizeNr (nr : Option String) : String :=
  match nr with
  | none => "unbekannt"
  | some n =>
    let safe : String := ⟨n.data.filter (fun c => c.isAlphanum || c == '-' || c == '_')⟩
    if safe == "" then "unbekannt" else safe

/-- `WareneingangProcessor._move_document_to_category`.  A failed
category lookup returns failure; a missing source file returns success
without moving and without touching the record; a source already inside
the target directory likewise; otherwise the file is moved to the
canonical name and the record's path and filename are updated. -/
def move_document_to_category (env : MoveEnv) (dok : DokumentRec) (nr : Option String) :
    MoveResult :=
  match env.categoryPath with
  | none => ⟨false, none, dok.pfad, dok.dateiname⟩
  | some target =>
    if !env.srcExists then ⟨true, none, dok.pfad, dok.dateiname⟩
    else if containsSub target.data dok.pfad.data then ⟨true, none, dok.pfad, dok.dateiname⟩
    else
      let neuer_dateiname :=
        "lief_ext_" ++ sanitizeNr nr ++ "_" ++ env.timestamp ++ "_" ++ toString dok.id ++ ".pdf"
      let neuer_pfad := target ++ "/" ++ neuer_dateiname
      ⟨true, some neuer_pfad, neuer_pfad, neuer_dateiname⟩

/-! ### Helper lemmas -/

/-- Counting by fold equals the length of the filtered list. -/
theorem foldl_count_eq_filter_length {α : Type} (p : α → Bool) :
    ∀ (l : List α) (a : Nat),
      l.foldl (fun acc r => if p r then acc + 1 else acc) a = a + (l.filter p).length := by
  intro l
  induction l with
  | nil => intro a; simp
  | cons x xs ih =>
    intro a
    cases h : p x
    · simp [List.foldl_cons, h, ih]
    · simp [List.foldl_cons, h, ih]
      omega

/-- The delimiter loop picks the first accepted delimiter. -/
theorem tryDelimiters_eq_find :
    ∀ (ds : List Char) (lines : List String),
      tryDelimiters ds lines =
        (match ds.find? (fun d => acceptsDelimiter d lines) with
         | some d => loadRows d lines
         | none => []) := by
  intro ds
  induction ds with
  | nil => intro lines; rfl
  | cons d ds ih =>
    intro lines
    cases h : acceptsDelimiter d lines
    · simp [tryDelimiters, h, List.find?, ih]
    · simp [tryDelimiters, h, List.find?]

/-- Collecting blank indices from a higher start shifts every index. -/
theorem pagesToRemoveAux_succ :
    ∀ (ps : List Page) (i : Nat),
      pagesToRemoveAux (i + 1) ps = (pagesToRemoveAux i ps).map (· + 1) := by
  intro ps
  induction ps with
  | nil => intro i; rfl
  | cons p rest ih =>
    intro i
    cases h : is_blank p
    · simp [pagesToRemoveAux, h, ih]
    · simp [pagesToRemoveAux, h, ih]

/-- Deleting a concatenation of index lists deletes them in sequence. -/
theorem applyDeletions_append :
    ∀ (A B : List Nat) (ps : List Page),
      applyDeletions (A ++ B) ps = applyDeletions B (applyDeletions A ps) := by
  intro A
  induction A with
  | nil => intro B ps; rfl
  | cons i A ih => intro B ps; simp [applyDeletions, ih]

/-- Deletions at shifted indices leave the head untouched. -/
theorem applyDeletions_map_succ :
    ∀ (M : List Nat) (p : Page) (ps : List Page),
      applyDeletions (M.map (· + 1)) (p :: ps) = p :: applyDeletions M ps := by
  intro M
  induction M with
  | nil => intro p ps; rfl
  | cons i M ih => intro p ps; simp [applyDeletions, List.eraseIdx_cons_succ, ih]

/-- Back-to-front deletion of the blank-page indices filters out exactly
the blank pages. -/
theorem blankFilterResult_eq_filter :
    ∀ ps : List Page, blankFilterResult ps = ps.filter (fun p => !is_blank p) := by
  intro ps
  induction ps with
  | nil => rfl
  | cons p rest ih =>
    cases h : is_blank p
    · show applyDeletions (pagesToRemoveAux 0 (p :: rest)).reverse (p :: rest) = _
      rw [show pagesToRemoveAux 0 (p :: rest) = pagesToRemoveAux 1 rest by
            simp [pagesToRemoveAux, h]]
      rw [show (1 : Nat) = 0 + 1 from rfl, pagesToRemoveAux_succ]
      rw [← List.map_reverse, applyDeletions_map_succ]
      rw [List.filter_cons_of_pos (by simp [h])]
      exact congrArg _ ih
    · show applyDeletions (pagesToRemoveAux 0 (p :: rest)).reverse (p :: rest) = _
      rw [show pagesToRemoveAux 0 (p :: rest) = 0 :: pagesToRemoveAux 1 rest by
            simp [pagesToRemoveAux, h]]
      rw [show (1 : Nat) = 0 + 1 from rfl, pagesToRemoveAux_succ]
      rw [List.reverse_cons, applyDeletions_append, ← List.map_reverse,
        applyDeletions_map_succ]
      show (p :: applyDeletions (pagesToRemoveAux 0 rest).reverse rest).eraseIdx 0 = _
      rw [List.eraseIdx_cons_zero]
      rw [List.filter_cons_of_neg (by simp [h])]
      exact ih

/-- The number of collected blank indices is the number of blank pages. -/
theorem pagesToRemoveAux_length :
    ∀ (ps : List Page) (i : Nat),
      (pagesToRemoveAux i ps).length = (ps.filter is_blank).length := by
  intro ps
  induction ps with
  | nil => intro i; rfl
  | cons p rest ih =>
    intro i
    cases h : is_blank p
    · simp [pagesToRemoveAux, h, ih]
    · simp [pagesToRemoveAux, h, ih]

/-- A filter and its complement split the length of a list. -/
theorem filter_length_add_compl :
    ∀ (l : List Page), (l.filter is_blank).length + (l.filter (fun p => !is_blank p)).length = l.length := by
  intro l
  induction l with
  | nil => rfl
  | cons p rest ih =>
    cases h : is_blank p
    · simp [h, ih]
      omega
    · simp [h]
      omega

/-- Bounded-by-ten rendered as the negation of the strict comparison. -/
theorem decide_le_ten_eq (L : Nat) : decide (L ≤ 10) = !decide (10 < L) := by
  by_cases h : 10 < L
  · simp [h, not_le.mpr h]
  · simp [h, not_lt.mp h]

/-! ### Claim theorems -/

/-- Claim C3: a reference row is imported as a line item if and only if its
identifier-column value, after whitespace trimming, is case-sensitively
string-equal to the extracted identifier; `"131/25"` matches a stored
`"131/25 "` after trimming but never `"0131/25"` and never a value
differing only in letter case; the import count is the number of such
rows. -/
theorem csv_exact_match_iff :
    (∀ (rows : List CsvRow) (nr : String) (r : CsvRow),
      r ∈ importedRows rows nr ↔ r ∈ rows ∧ csvIdent r = nr)
    ∧ importedRows [[("LIEFERSCHEINNR", "131/25 ")]] "131/25" =
        [[("LIEFERSCHEINNR", "131/25 ")]]
    ∧ importedRows [[("LIEFERSCHEINNR", "0131/25")]] "131/25" = []
    ∧ importedRows [[("LIEFERSCHEINNR", "131/25a")]] "131/25A" = []
    ∧ ∀ (rows : List CsvRow) (nr : String),
        import_csv_data rows nr = (importedRows rows nr).length := by
  refine ⟨?_, by decide, by decide, by decide, ?_⟩
  · intro rows nr r
    simp [importedRows, List.mem_filter]
  · intro rows nr
    have h := foldl_count_eq_filter_length (fun r => csvIdent r == nr) rows 0
    simpa [import_csv_data, importedRows] using h

/-- Claim C4: delimiters are tried in the fixed order `;`, `,`, tab, `|` and
the first one for which the first parsed row has more than 10 columns is
used for the whole file, with headers and values trimmed; a file no
delimiter accepts contributes no rows, and loading of the remaining
files continues. -/
theorem csv_delimiter_order :
    (∀ lines : List String,
      load_single_csv lines =
        (match delimiters_to_try.find? (fun d => acceptsDelimiter d lines) with
         | some d => loadRows d lines
         | none => []))
    ∧ (∀ (f : List String) (fs : List (List String)),
        load_single_csv f = [] → load_csv_files (f :: fs) = load_csv_files fs)
    ∧ load_single_csv ["A ;B;C;D;E;F;G;H;I;J;K", " 1;2;3;4;5;6;7;8;9;10; 11 "] =
        [[("A", "1"), ("B", "2"), ("C", "3"), ("D", "4"), ("E", "5"), ("F", "6"),
          ("G", "7"), ("H", "8"), ("I", "9"), ("J", "10"), ("K", "11")]] := by
  refine ⟨fun lines => tryDelimiters_eq_find delimiters_to_try lines, ?_, by decide⟩
  intro f fs h
  simp [load_csv_files, h]

/-- Witness for C4 at a concrete input: a two-column file is accepted by
no delimiter and so contributes nothing to the overall load. -/
theorem csv_delimiter_order_witness :
    load_csv_files [["a;b", "1;2"], ["A;B;C;D;E;F;G;H;I;J;K", "1;2;3;4;5;6;7;8;9;10;11"]] =
      load_csv_files [["A;B;C;D;E;F;G;H;I;J;K", "1;2;3;4;5;6;7;8;9;10;11"]] :=
  csv_delimiter_order.2.1 ["a;b", "1;2"] [["A;B;C;D;E;F;G;H;I;J;K", "1;2;3;4;5;6;7;8;9;10;11"]]
    (by decide)

/-- Claim C6: a page is removed if and only if its near-white fraction exceeds
0.98 and the text rescue agrees it is blank (stripped text of at most 10
characters or without alphanumerics, and containing no domain keyword);
a page below the pixel threshold is always kept, and the document after
the back-to-front deletion loop is exactly the original minus the blank
pages. -/
theorem blank_page_removed_iff :
    ∀ (p : Page) (ps : List Page),
      (is_blank p =
        (pixel_based_blank p &&
          ((decide ((pyStrip p.text).data.length ≤ 10) ||
              !((pyStrip p.text).data.any Char.isAlphanum)) &&
            !(wareneingang_keywords.any
                (fun k => containsSub k.data (lowerStr (pyStrip p.text)).data)))))
      ∧ blankFilterResult ps = ps.filter (fun q => !is_blank q) := by
  intro p ps
  refine ⟨?_, blankFilterResult_eq_filter ps⟩
  unfold is_blank text_based_blank
  rw [decide_le_ten_eq]
  cases hp : pixel_based_blank p
  · simp
  · cases h10 : decide (10 < (pyStrip p.text).data.length) <;>
      cases ha : (pyStrip p.text).data.any Char.isAlphanum <;>
      cases hk : wareneingang_keywords.any
          (fun k => containsSub k.data (lowerStr (pyStrip p.text)).data) <;>
      simp

/-- Claim C7 counterexample: the operation returns a boolean, not the removed
count — documents with one and with two removed blank pages yield the
same return value, and the zero-removed outcome returns the same `false`
as a failed save. -/
theorem blank_filter_result_not_a_count :
    (pagesToRemove [⟨99, 100, ""⟩, ⟨80, 100, "Rechnung Nr 4711"⟩]).length = 1
    ∧ (pagesToRemove [⟨99, 100, ""⟩, ⟨99, 100, ""⟩, ⟨80, 100, "Rechnung Nr 4711"⟩]).length = 2
    ∧ remove_blank_pages_pillow true [⟨99, 100, ""⟩, ⟨80, 100, "Rechnung Nr 4711"⟩] =
        remove_blank_pages_pillow true [⟨99, 100, ""⟩, ⟨99, 100, ""⟩, ⟨80, 100, "Rechnung Nr 4711"⟩]
    ∧ remove_blank_pages_pillow true [⟨80, 100, "Rechnung Nr 4711"⟩] = false
    ∧ remove_blank_pages_pillow false [⟨99, 100, ""⟩] = false := by
  decide

/-- Claim C7 amended: the operation returns true exactly when at least one
page was removed and the rewritten file was saved; zero removed pages
yields false without being an error, and removed plus kept pages account
for the whole document. -/
theorem blank_filter_bool_result :
    ∀ (saveOk : Bool) (ps : List Page),
      remove_blank_pages_pillow saveOk ps =
        (decide (0 < (pagesToRemove ps).length) && saveOk)
      ∧ (pagesToRemove ps).length + (blankFilterResult ps).length = ps.length := by
  intro saveOk ps
  constructor
  · unfold remove_blank_pages_pillow
    by_cases h : 0 < (pagesToRemove ps).length <;> cases saveOk <;> simp [h]
  · rw [blankFilterResult_eq_filter, pagesToRemove, pagesToRemoveAux_length]
    exact filter_length_add_compl ps

/-- Claim C5 counterexample: with a first anchor whose following line is too
short and a second anchor followed by a valid number, the extractor
returns the later number, while the claim's first-anchor-only reading
predicts failure. -/
theorem extractor_honors_later_anchor :
    extract_lieferscheinnummer ["Wareneingang", "ab", "Wareneingang", "131/25"] = some "131/25"
    ∧ extract_firstAnchorOnly ["Wareneingang", "ab", "Wareneingang", "131/25"] = none := by
  decide

/-- Claim C5 amended: the extractor returns the cleaned line following the
first anchor line whose successor passes validation; an anchor whose
candidate fails validation is skipped and later anchors are still
consulted, and extraction fails only when no anchor has a valid
successor. -/
theorem extractor_first_valid_candidate :
    ∀ lines : List String,
      extract_lieferscheinnummer lines = (validCandidates lines).head? := by
  intro lines
  induction lines with
  | nil => rfl
  | cons a rest ih =>
    cases rest with
    | nil =>
      cases h : containsAnchor a <;>
        simp [extract_lieferscheinnummer, validCandidates, adjacentPairs, h]
    | cons b r =>
      cases ha : containsAnchor a
      · simpa [extract_lieferscheinnummer, ha, validCandidates, adjacentPairs] using ih
      · cases hv : isValidId (cleanCandidate b)
        · simpa [extract_lieferscheinnummer, ha, hv, validCandidates, adjacentPairs] using ih
        · simp [extract_lieferscheinnummer, ha, hv, validCandidates, adjacentPairs]

/-- Claim C2 counterexample: an applicable processor whose `process` returns
false does not end the dispatch — a later applicable processor still
runs and its success is returned, while the claim's reading returns the
first applicable processor's false. -/
theorem registry_consults_later_after_false :
    process_document [⟨.ok true, .ok false⟩, ⟨.ok true, .ok true⟩] = true
    ∧ process_document_claim [⟨.ok true, .ok false⟩, ⟨.ok true, .ok true⟩] = false := by
  decide

/-- Claim C2 amended: the registry dispatch returns true exactly when some
registered processor both declares itself applicable and processes
successfully; applicable processors that return false or raise are
treated as not handled and the scan continues in registration order. -/
theorem registry_true_iff_some_success :
    ∀ ps : List Proc,
      process_document ps = true ↔
        ∃ p ∈ ps, p.canHandleRes = CallOutcome.ok true ∧ p.processRes = CallOutcome.ok true := by
  intro ps
  induction ps with
  | nil => simp [process_document]
  | cons p rest ih =>
    cases hc : p.canHandleRes with
    | raised => simp [process_document, hc, ih]
    | ok b =>
      cases b
      · simp [process_document, hc, ih]
      · cases hp : p.processRes with
        | raised => simp [process_document, hc, hp, ih]
        | ok b2 =>
          cases b2
          · simp [process_document, hc, hp, ih]
          · simp [process_document, hc, hp]

/-- Claim C1 counterexample: when the file vanishes before the
document-processing stage (the stage fails), the scheduler still writes
the `.doc_processed` marker, contrary to the claim that a failed stage
leaves its marker unset. -/
theorem doc_marker_written_on_failure :
    (SchedEnv.mk true true true false true false true DocProcOutcome.handled).find4 = false
    ∧ (process_single_file_complete
        (SchedEnv.mk true true true false true false true DocProcOutcome.handled)
        (PipelineState.mk true false true false)).docMarker = true := by
  decide

/-- Claim C1 amended: the OCR marker is written exactly when the OCR stage ran
and succeeded (a failed OCR or a missing file leaves it unset for the
next poll), while the document-processing marker is written whenever the
stage is reached at all — also on file-not-found, no-processor and
raised-exception outcomes — so only the OCR marker implies its stage
succeeded. -/
theorem stage_markers_after_processing :
    ∀ (env : SchedEnv) (s : PipelineState),
      (process_single_file_complete env s).ocrMarker =
        (s.ocrMarker || (env.find1 && env.ocrOk))
      ∧ (process_single_file_complete env s).docMarker =
        (s.docMarker || (env.find1 && (s.ocrMarker || env.ocrOk))) := by
  intro env s
  obtain ⟨f1, ocr, f2, br, f3, f4, mgr, docOut⟩ := env
  obtain ⟨om, dm, db, pr⟩ := s
  cases f1 <;> cases ocr <;> cases om <;> cases dm <;> cases f3 <;> cases db <;>
    cases f4 <;> cases mgr <;> cases docOut <;>
    exact ⟨rfl, rfl⟩

/-- Claim C8: when the source file no longer exists at the document's recorded
path, relocation reports success, performs no move, and leaves the
stored path and filename untouched. -/
theorem move_missing_source_is_success (env : MoveEnv) (dok : DokumentRec)
    (nr : Option String) (t : String)
    (hcat : env.categoryPath = some t) (hsrc : env.srcExists = false) :
    move_document_to_category env dok nr = ⟨true, none, dok.pfad, dok.dateiname⟩ := by
  simp [move_document_to_category, hcat, hsrc]

/-- Witness for C8 at a concrete input: a resolvable category directory
and an already-moved source file. -/
theorem move_missing_source_is_success_witness :
    move_document_to_category
        (MoveEnv.mk (some "processed/lieferscheine/lieferschein_extern") false "010203_040506")
        (DokumentRec.mk 7 "input/delivery_007.pdf" "delivery_007.pdf")
        (some "131/25") =
      MoveResult.mk true none "input/delivery_007.pdf" "delivery_007.pdf" :=
  move_missing_source_is_success
    (MoveEnv.mk (some "processed/lieferscheine/lieferschein_extern") false "010203_040506")
    (DokumentRec.mk 7 "input/delivery_007.pdf" "delivery_007.pdf")
    (some "131/25") "processed/lieferscheine/lieferschein_extern" rfl rfl

/-- Claim C9: an unexpected OCR failure copies the input PDF unchanged to the
output path and reports success, and a scheduler pass seeing that
success writes the OCR completion marker for a file that never received
a text layer. -/
theorem ocr_unexpected_error_reports_success :
    create_searchable_pdf true (OcrOutcome.unexpected true) = (true, PdfOutput.copyOfInput)
    ∧ (process_single_file_complete
        (SchedEnv.mk true (create_searchable_pdf true (OcrOutcome.unexpected true)).1
          true false true true true DocProcOutcome.notHandled)
        (PipelineState.mk false false false false)).ocrMarker = true := by
  decide

/-- Claim C10: the applicability test reads only the first 20 non-empty lines
while extraction reads 30, so a document whose only anchor sits past
line 20 is rejected by `can_handle` even though extraction on the same
document succeeds. -/
theorem can_handle_extraction_budget_gap :
    ∃ raw : List String,
      can_handle raw = false ∧ extract_from_raw raw = some "131/25" :=
  ⟨List.replicate 20 "x" ++ ["Wareneingang", "131/25"], by decide⟩
